import Mathlib

/-
Verification of the crypto ingestion engine (CryptoDataIngester.py) against its
natural-language specification.  The Python source is shallowly embedded below:
pure computations become Lean functions, the mutable object state of the
CryptoDataIngester instance becomes an explicit `Ingester` record threaded
through each method, fallible paths return `Except`, and pandas tables are
association lists from integer id to a row (an association list from column
name to an optional cell, `none` standing for a missing value / NA).
-/

/-- A scalar cell value of the canonical table (the source is schema-agnostic:
numeric and string market fields both occur). -/
inductive Value where
  | intV (i : Int)
  | strV (s : String)
deriving DecidableEq, Repr

/-- One row of a table: column name to optional cell (`none` = NA). -/
abbrev Row := List (String × Option Value)

/-- A pandas DataFrame keyed by the id index: association list id to row. -/
abbrev Table := List (Nat × Row)

/-- First-match association-list lookup, the alignment primitive used by the
embedded pandas operations. -/
def alist_lookup {α β : Type} [DecidableEq α] : List (α × β) → α → Option β
  | [], _ => none
  | (a, b) :: t, k => if a = k then some b else alist_lookup t k

/-- The (name, symbol, website_slug) natural-key triple of a row, as read by
the merge calls in the source (the on-columns name, symbol, website_slug). -/
def natural_key (r : Row) : Option (Option Value) × Option (Option Value) × Option (Option Value) :=
  (alist_lookup r "name", alist_lookup r "symbol", alist_lookup r "website_slug")

/-- One cell of `DataFrame.update` alignment: a non-NA incoming cell for the
same column overwrites, anything else (column absent, or NA) keeps the old
cell. -/
def patch_cell (pr : Row) (c : String) (v : Option Value) : Option Value :=
  match alist_lookup pr c with
  | some (some w) => some w
  | _ => v

/-- Row-level `DataFrame.update`: every column of the existing row is patched
from the incoming row; columns the existing row does not have are not added
(pandas `update` aligns on the columns of `self`). -/
def patch_row (r pr : Row) : Row :=
  r.map (fun cv => (cv.1, patch_cell pr cv.1 cv.2))

/-- Embedding of `self._currency_df.update(response_df)` (source line 314,
pandas `DataFrame.update`): rows are aligned on the id index, rows of the
incoming frame with no id match are ignored, matched rows are patched
column-wise with the non-NA incoming cells. -/
def df_update (t p : Table) : Table :=
  t.map (fun row =>
    match alist_lookup p row.1 with
    | some pr => (row.1, patch_row row.2 pr)
    | none => row)

/-- Embedding of the first ticker merge (source line 316):
pd.merge of currency_df with response_df on the natural key, how left.
Every existing (listing-seeded) row is kept; a right row matching on the
natural key contributes its columns that the left row lacks.  (The pandas
suffixing of overlapping non-key columns and the loss of the integer index
are elided: no claim under verification depends on them.) -/
def first_ticker_merge (existing incoming : Table) : Table :=
  existing.map (fun er =>
    match incoming.find? (fun p => natural_key p.2 = natural_key er.2) with
    | some p =>
        (er.1, er.2 ++ p.2.filter (fun ce => decide (alist_lookup er.2 ce.1 = none)))
    | none => er)

/-- Modelled from the spec: the listing merge the specification prescribes for
subsequent listing pulls, which the source does not implement (its line 348
passes the raw response object, not the parsed table, to `pd.merge`).  A
right-join on the natural key: the result has exactly the incoming rows; a
row matching an existing row on the natural key takes the incoming values,
keeping only the existing columns the incoming row lacks; unmatched incoming
rows are inserted as-is; existing rows with no match are dropped. -/
def spec_listing_merge (existing incoming : Table) : Table :=
  incoming.map (fun ir =>
    match existing.find? (fun p => natural_key p.2 = natural_key ir.2) with
    | some p =>
        (ir.1, ir.2 ++ p.2.filter (fun ce => decide (alist_lookup ir.2 ce.1 = none)))
    | none => ir)

/-- Embedding of the nested `PageTracker` class.  In the source `_max_page`
is `None` until the first successful global pull supplies it; the engine
sequences things so that `next_page` is never drawn before that, so the model
carries it as a `Nat` (the pre-global placeholder is 0). -/
structure PageTracker where
  pageLength : Nat
  maxPage : Nat
  nextPage : Option Nat
  completedFullCycle : Bool
  lastPage : Option Nat
deriving DecidableEq, Repr

/-- A freshly constructed `PageTracker(page_length, max_page)`. -/
def PageTracker.mk0 (pageLength maxPage : Nat) : PageTracker :=
  { pageLength := pageLength, maxPage := maxPage,
    nextPage := none, completedFullCycle := false, lastPage := none }

/-- Embedding of the `next_page` property (source lines 111 to 127): first
draw returns 1 and plants the pointer at `pageLength + 1` with no wrap check;
a later draw returns the pointer, advances it by `pageLength`, and if the
advanced pointer exceeds `maxPage` resets it to 1 and sets
`completedFullCycle` (which nothing ever clears). -/
def PageTracker.next_page (s : PageTracker) : Nat × PageTracker :=
  match s.nextPage with
  | none =>
      (1, { s with lastPage := some 1, nextPage := some (s.pageLength + 1) })
  | some p =>
      let np := p + s.pageLength
      if np > s.maxPage then
        (p, { s with lastPage := some p, nextPage := some 1, completedFullCycle := true })
      else
        (p, { s with lastPage := some p, nextPage := some np })

/-- Embedding of the `coming_page` property (source lines 129 to 131): the
raw pointer, `none` before the first draw. -/
def PageTracker.coming_page (s : PageTracker) : Option Nat :=
  s.nextPage

/-- The tracker state after `n` draws of `next_page`. -/
def drawState (s : PageTracker) : Nat → PageTracker
  | 0 => s
  | n + 1 => (PageTracker.next_page (drawState s n)).2

/-- The page returned by draw number `n` (0-indexed: `callValue s 0` is the
value of the first `next_page` call). -/
def callValue (s : PageTracker) (n : Nat) : Nat :=
  (PageTracker.next_page (drawState s n)).1

/-- The list of pages returned by the first `n` draws. -/
def callValues (s : PageTracker) (n : Nat) : List Nat :=
  (List.range n).map (callValue s)

/-- The configuration values the engine reads in `__init__` (source lines
168 to 201). -/
structure Config where
  pull_frequency_minimum_interval : Int
  refresh_period : Int
  timeout : Int
  error_timeout : Int
  listing_pull_frequency : Int
  global_pull_frequency : Int
  page_length : Nat
deriving DecidableEq, Repr

/-- The `_currency_df` attribute.  `__init__` assigns the class attribute
`pd.DataFrame.empty` — an unbound property object, not an empty frame — so
before the first listing pull the attribute holds that sentinel object, not a
table. -/
inductive CurrencyDf where
  | sentinel
  | df (t : Table)
deriving DecidableEq, Repr

/-- The errors the embedded methods can raise.  `response_error` is
`CryptoIngestResponseError` carrying the serialized `metadata` payload;
`value_error` and `type_error` stand for the Python `ValueError` and
`TypeError` raised by pandas on the defective listing-merge path. -/
inductive IngestError where
  | response_error (metadata : String)
  | value_error (msg : String)
  | type_error (msg : String)
deriving DecidableEq, Repr

/-- The global endpoint response: `data` carries `active_cryptocurrencies`
when present, `metadata` is the diagnostic payload serialized on failure. -/
structure GlobalResponse where
  data : Option Nat
  metadata : String
deriving DecidableEq, Repr

/-- A listing or ticker endpoint response, its `data` already parsed the way
pd.DataFrame.from_records with the id index parses it: records keyed by id. -/
structure DataResponse where
  data : Option Table
  metadata : String
deriving DecidableEq, Repr

/-- The mutable state of a `CryptoDataIngester` instance: every attribute the
embedded methods read or write.  `persisted` records, in order, each table
handed to `CSV_Persistor.persist` by the snapshot trigger. -/
structure Ingester where
  last_pull : Int
  last_listing_update : Int
  timeout_start : Option Int
  in_timeout : Bool
  page_tracker : PageTracker
  global_content_initialized : Bool
  listing_initialized : Bool
  tickers_initialized : Bool
  first_ticker_added : Bool
  currency_df : CurrencyDf
  persisted : List CurrencyDf
deriving DecidableEq, Repr

/-- Embedding of the `pull_allowed` property (source lines 207 to 214):
returns the gate verdict and writes `_in_timeout` (its only mutation).  The
source reads `current_time` separately in each condition; the embedding takes
the single query time `now`. -/
def pull_allowed (cfg : Config) (s : Ingester) (now : Int) : Bool × Ingester :=
  let condition_1 := decide (now - s.last_pull > cfg.pull_frequency_minimum_interval)
  let condition_2 :=
    match s.timeout_start with
    | none => true
    | some ts => decide (now - ts > cfg.refresh_period)
  (condition_1 && condition_2, { s with in_timeout := !condition_2 })

/-- Embedding of the `finally` block of `_update_next_ticker_set` (source
lines 323 to 328): if the coming page equals 1 and the engine is not in
timeout, open the cool-down window (`_timeout_start := now`), persist the
canonical table, and set `_in_timeout`.  Returns whether it fired. -/
def snapshot_check (s : Ingester) (now : Int) : Bool × Ingester :=
  if s.page_tracker.coming_page = some 1 ∧ s.in_timeout = false then
    (true, { s with timeout_start := some now,
                    persisted := s.persisted ++ [s.currency_df],
                    in_timeout := true })
  else
    (false, s)

/-- Embedding of `_update_global` (source lines 272 to 292): when the
staleness check (or the `override_update` flag) and the pull gate both pass,
record the pull time, then either store `active_cryptocurrencies` into the
page tracker and return `True`, or raise `CryptoIngestResponseError` when the
`data` payload is missing.  Short-circuit evaluation is preserved: the gate
(and its `_in_timeout` write) is only evaluated when the left conjunct holds. -/
def update_global (cfg : Config) (s : Ingester) (now : Int) (resp : GlobalResponse)
    (override_update : Bool) : Except IngestError Bool × Ingester :=
  if now - s.last_listing_update > cfg.global_pull_frequency ∨ override_update = true then
    let gate := pull_allowed cfg s now
    if gate.1 then
      let s2 := { gate.2 with last_pull := now }
      match resp.data with
      | some n =>
          (Except.ok true,
           { s2 with page_tracker := { s2.page_tracker with maxPage := n } })
      | none => (Except.error (IngestError.response_error resp.metadata), s2)
    else
      (Except.ok false, gate.2)
  else
    (Except.ok false, s)

/-- The comparison `self._currency_df == pd.DataFrame.empty` (source line
345) in a boolean context.  When `_currency_df` still holds the property
sentinel the comparison is identity and yields `True`; once it holds a real
DataFrame, `==` broadcasts element-wise and the `if` raises
`ValueError: truth value of a DataFrame is ambiguous`. -/
def currency_df_eq_empty_sentinel : CurrencyDf → Except IngestError Bool
  | CurrencyDf.sentinel => Except.ok true
  | CurrencyDf.df _ =>
      Except.error (IngestError.value_error "truth value of a DataFrame is ambiguous")

/-- Embedding of `_update_currency_list` (source lines 330 to 356).  On a
gated, non-stale pull: raise on a missing `data` payload; otherwise, if the
table still holds the construction sentinel, assign the parsed records
wholesale; otherwise the source reaches
`pd.merge(left=self._currency_df, right=result, ...)` with `result` the raw
response dict — but the emptiness comparison one line earlier already raises,
and even if it did not, merging a DataFrame with a dict raises `TypeError`,
so the specified right-join is never performed. -/
def update_currency_list (cfg : Config) (s : Ingester) (now : Int) (resp : DataResponse)
    (override_update : Bool) : Except IngestError Bool × Ingester :=
  if now - s.last_listing_update > cfg.listing_pull_frequency ∨ override_update = true then
    let gate := pull_allowed cfg s now
    if gate.1 then
      let s2 := { gate.2 with last_pull := now }
      match resp.data with
      | none => (Except.error (IngestError.response_error resp.metadata), s2)
      | some records =>
          match currency_df_eq_empty_sentinel s2.currency_df with
          | Except.error e => (Except.error e, s2)
          | Except.ok true =>
              (Except.ok true, { s2 with currency_df := CurrencyDf.df records })
          | Except.ok false =>
              (Except.error (IngestError.type_error "can only merge Series or DataFrame objects"),
               s2)
    else
      (Except.ok false, gate.2)
  else
    (Except.ok false, s)

/-- Embedding of `_update_next_ticker_set` (source lines 294 to 328).  The
body runs only when the gate passes: it draws the next page (advancing the
cursor), records the pull time, raises on a missing `data` payload, and
otherwise merges — `DataFrame.update` once the first ticker page has been
added, the natural-key left join the first time.  The `finally` snapshot
check runs on every path, gate-denied and error paths included. -/
def update_next_ticker_set (cfg : Config) (s : Ingester) (now : Int)
    (resp : DataResponse) : Except IngestError Unit × Ingester :=
  let body : Except IngestError Unit × Ingester :=
    let gate := pull_allowed cfg s now
    if gate.1 then
      let draw := gate.2.page_tracker.next_page
      let s2 := { gate.2 with page_tracker := draw.2, last_pull := now }
      match resp.data with
      | none => (Except.error (IngestError.response_error resp.metadata), s2)
      | some records =>
          if s2.first_ticker_added then
            match s2.currency_df with
            | CurrencyDf.df t =>
                (Except.ok (), { s2 with currency_df := CurrencyDf.df (df_update t records) })
            | CurrencyDf.sentinel =>
                (Except.error (IngestError.type_error "property object has no attribute update"), s2)
          else
            match s2.currency_df with
            | CurrencyDf.df t =>
                (Except.ok (),
                 { s2 with currency_df := CurrencyDf.df (first_ticker_merge t records),
                           first_ticker_added := true })
            | CurrencyDf.sentinel =>
                (Except.error (IngestError.type_error "can only merge Series or DataFrame objects"),
                 s2)
    else
      (Except.ok (), gate.2)
  (body.1, (snapshot_check body.2 now).2)

/-- Embedding of the `initialized` property of `InitializedStruct` (source
lines 39 to 41). -/
def initialized (s : Ingester) : Bool :=
  s.listing_initialized && s.tickers_initialized && s.global_content_initialized

/-- Embedding of `_initialize_data` (source lines 254 to 265): drive exactly
one pending stage — global, else listing, else one ticker page — and flip the
matching flag on success (for tickers, when the cursor reports a completed
cycle).  A raised error propagates with the flag untouched. -/
def initialize_data (cfg : Config) (s : Ingester) (now : Int) (g : GlobalResponse)
    (l t : DataResponse) : Except IngestError Unit × Ingester :=
  if s.global_content_initialized = false then
    match update_global cfg s now g true with
    | (Except.ok true, s1) => (Except.ok (), { s1 with global_content_initialized := true })
    | (Except.ok false, s1) => (Except.ok (), s1)
    | (Except.error e, s1) => (Except.error e, s1)
  else if s.listing_initialized = false then
    match update_currency_list cfg s now l true with
    | (Except.ok true, s1) => (Except.ok (), { s1 with listing_initialized := true })
    | (Except.ok false, s1) => (Except.ok (), s1)
    | (Except.error e, s1) => (Except.error e, s1)
  else if s.tickers_initialized = false then
    match update_next_ticker_set cfg s now t with
    | (Except.ok _, s1) =>
        if s1.page_tracker.completedFullCycle then
          (Except.ok (), { s1 with tickers_initialized := true })
        else
          (Except.ok (), s1)
    | (Except.error e, s1) => (Except.error e, s1)
  else
    (Except.ok (), s)

/-- Embedding of `_update_data` (source lines 267 to 270): a listing refresh
attempt followed by a ticker-page refresh attempt; an error in the former
aborts the iteration before the latter. -/
def update_data (cfg : Config) (s : Ingester) (now : Int) (l t : DataResponse) :
    Except IngestError Unit × Ingester :=
  match update_currency_list cfg s now l false with
  | (Except.ok _, s1) => update_next_ticker_set cfg s1 now t
  | (Except.error e, s1) => (Except.error e, s1)

/-- A log entry produced through `Logger.log`: the category is the
`type_of_message` argument. -/
inductive LogEntry where
  | api_error (msg : String)
  | error (msg : String)
deriving DecidableEq, Repr

/-- One iteration of the `run_updater` loop (source lines 224 to 252),
returning the state, the log entries appended, the sleep applied, and
whether the loop keeps running.  A `CryptoIngestResponseError` is logged
under `api_error` and replaces the normal sleep with the error backoff; any
other raised error is logged under `error` with the same backoff.  (The
`KeyboardInterrupt` arm is an asynchronous signal, not a value of the body,
and is outside this embedding.) -/
def run_iteration (cfg : Config) (s : Ingester) (now : Int) (g : GlobalResponse)
    (l t : DataResponse) : Ingester × List LogEntry × Int × Bool :=
  let body :=
    if initialized s then update_data cfg s now l t
    else initialize_data cfg s now g l t
  match body with
  | (Except.ok _, s1) => (s1, [], cfg.timeout, true)
  | (Except.error (IngestError.response_error m), s1) =>
      (s1, [LogEntry.api_error m], cfg.error_timeout, true)
  | (Except.error (IngestError.value_error m), s1) =>
      (s1, [LogEntry.error m], cfg.error_timeout, true)
  | (Except.error (IngestError.type_error m), s1) =>
      (s1, [LogEntry.error m], cfg.error_timeout, true)

/-- The environment of one loop iteration: the query time and the three
endpoint responses the iteration may consume. -/
abbrev IterInput := Int × GlobalResponse × DataResponse × DataResponse

/-- Run the loop through a list of iteration inputs. -/
def run_many (cfg : Config) (s : Ingester) : List IterInput → Ingester
  | [] => s
  | (now, g, l, t) :: rest =>
      run_many cfg (run_iteration cfg s now g l t).1 rest

/-- The instance state `__init__` builds (source lines 168 to 201): flags
false, table sentinel, no timeout window, fresh page tracker (its `max_page`
placeholder until the first global pull), construction time `t0`. -/
def initial_state (cfg : Config) (t0 : Int) : Ingester :=
  { last_pull := t0, last_listing_update := t0,
    timeout_start := none, in_timeout := false,
    page_tracker := PageTracker.mk0 cfg.page_length 0,
    global_content_initialized := false, listing_initialized := false,
    tickers_initialized := false, first_ticker_added := false,
    currency_df := CurrencyDf.sentinel, persisted := [] }

/-- A state is reachable when some run of the loop from a freshly
constructed instance produces it. -/
def ReachableState (cfg : Config) (s : Ingester) : Prop :=
  ∃ t0 inputs, s = run_many cfg (initial_state cfg t0) inputs

deriving instance DecidableEq for Except

/-- The (global, listing, tickers) initialization flags of a state. -/
def init_flags (s : Ingester) : Bool × Bool × Bool :=
  (s.global_content_initialized, s.listing_initialized, s.tickers_initialized)

/-- A sample configuration used by concrete witnesses. -/
def cfg_demo : Config :=
  { pull_frequency_minimum_interval := 300, refresh_period := 3600,
    timeout := 60, error_timeout := 600, listing_pull_frequency := 86400,
    global_pull_frequency := 86400, page_length := 100 }

/-- Sample canonical-table rows used by concrete witnesses. -/
def row_btc : Row :=
  [("name", some (Value.strV "Bitcoin")), ("symbol", some (Value.strV "BTC")),
   ("website_slug", some (Value.strV "bitcoin")),
   ("price", some (Value.intV 60000)), ("rank", some (Value.intV 1))]

def row_old : Row :=
  [("name", some (Value.strV "Oldcoin")), ("symbol", some (Value.strV "OLD")),
   ("website_slug", some (Value.strV "oldcoin")), ("price", some (Value.intV 5))]

def table_demo : Table := [(1, row_btc), (2, row_old)]

/-- An incoming listing whose first row matches `row_btc` on the natural key
with a fresh price, whose second row is a new asset, and which omits the
asset of `row_old` entirely. -/
def row_btc_new : Row :=
  [("name", some (Value.strV "Bitcoin")), ("symbol", some (Value.strV "BTC")),
   ("website_slug", some (Value.strV "bitcoin")), ("price", some (Value.intV 65000))]

def row_new : Row :=
  [("name", some (Value.strV "Newcoin")), ("symbol", some (Value.strV "NEW")),
   ("website_slug", some (Value.strV "newcoin")), ("price", some (Value.intV 2))]

def incoming_listing : Table := [(1, row_btc_new), (3, row_new)]

/-- A fully initialized engine state mid-cycle, used by concrete witnesses. -/
def ingester_ready : Ingester :=
  { last_pull := 0, last_listing_update := 0, timeout_start := none,
    in_timeout := false,
    page_tracker :=
      { pageLength := 100, maxPage := 250, nextPage := some 101,
        completedFullCycle := false, lastPage := some 1 },
    global_content_initialized := true, listing_initialized := true,
    tickers_initialized := true, first_ticker_added := true,
    currency_df := CurrencyDf.df table_demo, persisted := [] }

/-- The same engine state with the cursor about to restart its cycle. -/
def ingester_wrap : Ingester :=
  { ingester_ready with
      page_tracker :=
        { pageLength := 100, maxPage := 250, nextPage := some 1,
          completedFullCycle := true, lastPage := some 201 } }

/-- Two loop iterations that initialize the global stage and then the
listing stage, used to exhibit a nontrivial reachable state. -/
def demo_inputs : List IterInput :=
  [(1000, { data := some 250, metadata := "" },
    { data := some incoming_listing, metadata := "" },
    { data := some incoming_listing, metadata := "" }),
   (2000, { data := some 250, metadata := "" },
    { data := some incoming_listing, metadata := "" },
    { data := some incoming_listing, metadata := "" })]

lemma drawState_succ (s : PageTracker) (n : Nat) :
    drawState s (n + 1) = (PageTracker.next_page (drawState s n)).2 := rfl

lemma completedFullCycle_mono (s : PageTracker) (h : s.completedFullCycle = true) :
    (PageTracker.next_page s).2.completedFullCycle = true := by
  unfold PageTracker.next_page
  cases hn : s.nextPage with
  | none => simpa using h
  | some p =>
      dsimp only []
      split
      · rfl
      · simpa using h

lemma drawState_c1_period (n : Nat) :
    drawState (PageTracker.mk0 100 250) (n + 7) = drawState (PageTracker.mk0 100 250) (n + 4) := by
  induction n with
  | zero => decide
  | succ k ih =>
      have h1 : k + 1 + 7 = (k + 7) + 1 := by omega
      have h2 : k + 1 + 4 = (k + 4) + 1 := by omega
      rw [h1, h2]
      show (PageTracker.next_page (drawState (PageTracker.mk0 100 250) (k + 7))).2
         = (PageTracker.next_page (drawState (PageTracker.mk0 100 250) (k + 4))).2
      rw [ih]

lemma callValue_c1 (n : Nat) :
    callValue (PageTracker.mk0 100 250) n =
      if n % 3 = 0 then 1 else if n % 3 = 1 then 101 else 201 := by
  induction n using Nat.strong_induction_on with
  | _ n ih =>
    match n, ih with
    | 0, _ => decide
    | 1, _ => decide
    | 2, _ => decide
    | 3, _ => decide
    | 4, _ => decide
    | 5, _ => decide
    | 6, _ => decide
    | (m + 7), ih =>
        have hv : callValue (PageTracker.mk0 100 250) (m + 7)
            = callValue (PageTracker.mk0 100 250) (m + 4) := by
          unfold callValue
          rw [drawState_c1_period]
        have hmod : (m + 4) % 3 = (m + 7) % 3 := by omega
        rw [hv, ih (m + 4) (by omega), hmod]

lemma flag_c1_ge (m : Nat) :
    (drawState (PageTracker.mk0 100 250) (m + 3)).completedFullCycle = true := by
  induction m with
  | zero => decide
  | succ k ih =>
      have h1 : k + 1 + 3 = (k + 3) + 1 := by omega
      rw [h1]
      show (PageTracker.next_page (drawState (PageTracker.mk0 100 250) (k + 3))).2.completedFullCycle
         = true
      exact completedFullCycle_mono _ ih

/-- Claim C1 (amended): for a PageTracker with pageLength 100 and maxPage
250, successive next_page calls return 1, 101, 201, 1, 101, 201, ...
(draw n, counted from 0, returns 1, 101 or 201 as n mod 3 is 0, 1 or 2); and
completedFullCycle is set during the third call (the call that returns 201
and wraps the pointer) and is true after every draw from the third onwards —
it is sticky forever, never reset, rather than level-triggered on the calls
that return 1. -/
theorem c1_page_cursor_cycle :
    (∀ n, callValue (PageTracker.mk0 100 250) n =
        if n % 3 = 0 then 1 else if n % 3 = 1 then 101 else 201) ∧
    (∀ n, (drawState (PageTracker.mk0 100 250) n).completedFullCycle = decide (3 ≤ n)) := by
  refine ⟨callValue_c1, fun n => ?_⟩
  match n with
  | 0 => decide
  | 1 => decide
  | 2 => decide
  | (m + 3) =>
      have h3 : decide (3 ≤ m + 3) = true := by simp
      rw [h3, flag_c1_ge]

/-- Claim C1 counterexample: the claim says completedFullCycle is true
exactly on calls 4, 7, 10, ... — so false after call 3 and false after call
5.  In the code the flag is set at the end of call 3 (the wrapping call) and
never cleared, so it is true after both. -/
theorem c1_counterexample :
    ¬ ((drawState (PageTracker.mk0 100 250) 3).completedFullCycle = false ∧
       (drawState (PageTracker.mk0 100 250) 5).completedFullCycle = false) := by
  decide

lemma c9_next_page_fixed (pl mp : Nat) (h : mp < pl) :
    PageTracker.next_page ⟨pl, mp, some 1, true, some 1⟩
      = (1, ⟨pl, mp, some 1, true, some 1⟩) := by
  unfold PageTracker.next_page
  dsimp only []
  rw [if_pos (by omega : 1 + pl > mp)]

lemma c9_drawState_two (pl mp : Nat) (h : mp < pl) :
    drawState (PageTracker.mk0 pl mp) 2 = ⟨pl, mp, some 1, true, some (pl + 1)⟩ := by
  have h1 : drawState (PageTracker.mk0 pl mp) 2
      = (PageTracker.next_page ⟨pl, mp, some (pl + 1), false, some 1⟩).2 := rfl
  rw [h1]
  unfold PageTracker.next_page
  dsimp only []
  rw [if_pos (by omega : pl + 1 + pl > mp)]

lemma c9_drawState_ge3 (pl mp : Nat) (h : mp < pl) :
    ∀ k, drawState (PageTracker.mk0 pl mp) (k + 3) = ⟨pl, mp, some 1, true, some 1⟩ := by
  intro k
  induction k with
  | zero =>
      show (PageTracker.next_page (drawState (PageTracker.mk0 pl mp) 2)).2 = _
      rw [c9_drawState_two pl mp h]
      unfold PageTracker.next_page
      dsimp only []
      rw [if_pos (by omega : 1 + pl > mp)]
  | succ j ih =>
      have h1 : j + 1 + 3 = (j + 3) + 1 := by omega
      rw [h1]
      show (PageTracker.next_page (drawState (PageTracker.mk0 pl mp) (j + 3))).2 = _
      rw [ih, c9_next_page_fixed pl mp h]

/-- Claim C9 (amended): for a PageTracker whose maxPage is smaller than
pageLength, no call raises an error (the embedded next_page is total and the
wrap check uses strict greater-than), but the very first call does not wrap:
its branch plants the pointer at pageLength + 1 with no wrap check, so the
second call returns pageLength + 1 — a page exceeding maxPage — and only
then wraps; every call from the third onwards returns 1. -/
theorem c9_small_max_page (pl mp : Nat) (h : mp < pl) :
    callValue (PageTracker.mk0 pl mp) 0 = 1 ∧
    callValue (PageTracker.mk0 pl mp) 1 = pl + 1 ∧
    mp < callValue (PageTracker.mk0 pl mp) 1 ∧
    (∀ n, 2 ≤ n → callValue (PageTracker.mk0 pl mp) n = 1) := by
  have hc1 : callValue (PageTracker.mk0 pl mp) 1 = pl + 1 := by
    show (PageTracker.next_page ⟨pl, mp, some (pl + 1), false, some 1⟩).1 = pl + 1
    unfold PageTracker.next_page
    dsimp only []
    split <;> rfl
  refine ⟨rfl, hc1, by omega, fun n hn => ?_⟩
  match n, hn with
  | 2, _ =>
      show (PageTracker.next_page (drawState (PageTracker.mk0 pl mp) 2)).1 = 1
      rw [c9_drawState_two pl mp h]
      unfold PageTracker.next_page
      dsimp only []
      split <;> rfl
  | (k + 3), _ =>
      show (PageTracker.next_page (drawState (PageTracker.mk0 pl mp) (k + 3))).1 = 1
      rw [c9_drawState_ge3 pl mp h k, c9_next_page_fixed pl mp h]

/-- Claim C9 counterexample: with pageLength 100 and maxPage 50, the second
next_page call returns 101, a page greater than maxPage and different from
1, falsifying both the claim that no call ever returns a page above maxPage
and the claim that every call after the first returns 1. -/
theorem c9_counterexample :
    callValue (PageTracker.mk0 100 50) 1 = 101 ∧
    (PageTracker.mk0 100 50).maxPage < callValue (PageTracker.mk0 100 50) 1 ∧
    callValue (PageTracker.mk0 100 50) 1 ≠ 1 := by
  decide

/-- Claim C9 witness: the amended theorem applied at pageLength 100,
maxPage 50, call 5. -/
theorem c9_small_max_page_witness :
    (50 : Nat) < 100 ∧ callValue (PageTracker.mk0 100 50) 5 = 1 :=
  ⟨by omega, (c9_small_max_page 100 50 (by omega)).2.2.2 5 (by omega)⟩

lemma patch_cell_idem (pr : Row) (c : String) (v : Option Value) :
    patch_cell pr c (patch_cell pr c v) = patch_cell pr c v := by
  unfold patch_cell
  cases alist_lookup pr c with
  | none => rfl
  | some w =>
      cases w with
      | none => rfl
      | some u => rfl

lemma patch_row_idem (r pr : Row) : patch_row (patch_row r pr) pr = patch_row r pr := by
  induction r with
  | nil => rfl
  | cons cv rest ih =>
      simp only [patch_row, List.map_cons] at ih ⊢
      rw [patch_cell_idem]
      exact congrArg _ ih

/-- Claim C4: the ticker-page merge used once the table is seeded — the
embedded `DataFrame.update` at source line 314 — is idempotent: applying the
same page twice yields the same table as applying it once.  Moreover the
patch touches only fields actually present (non-NA) in the incoming row: a
present field overwrites, an NA or absent field leaves the existing cell. -/
theorem c4_ticker_merge_idempotent :
    (∀ t p : Table, df_update (df_update t p) p = df_update t p) ∧
    (∀ (pr : Row) (c : String) (v : Option Value) (w : Value),
        alist_lookup pr c = some (some w) → patch_cell pr c v = some w) ∧
    (∀ (pr : Row) (c : String) (v : Option Value),
        alist_lookup pr c = some none ∨ alist_lookup pr c = none →
        patch_cell pr c v = v) := by
  refine ⟨?_, ?_, ?_⟩
  · intro t p
    induction t with
    | nil => rfl
    | cons row rest ih =>
        obtain ⟨i, r⟩ := row
        simp only [df_update, List.map_cons] at ih ⊢
        cases h : alist_lookup p i with
        | none => simp only [h]; rw [ih]
        | some pr => simp only [h]; rw [patch_row_idem, ih]
  · intro pr c v w h
    unfold patch_cell
    rw [h]
  · intro pr c v h
    unfold patch_cell
    rcases h with h | h <;> rw [h]

/-- Claim C4 witness: the patch clauses of the idempotence theorem applied
at a concrete one-column row. -/
theorem c4_ticker_merge_idempotent_witness :
    patch_cell [("price", some (Value.intV 7))] "price" (some (Value.intV 3))
        = some (Value.intV 7) ∧
    patch_cell [("price", none)] "price" (some (Value.intV 3))
        = some (Value.intV 3) :=
  ⟨c4_ticker_merge_idempotent.2.1 [("price", some (Value.intV 7))] "price"
      (some (Value.intV 3)) (Value.intV 7) rfl,
   c4_ticker_merge_idempotent.2.2 [("price", none)] "price"
      (some (Value.intV 3)) (Or.inl rfl)⟩

/-- Claim C5: the pull gate returns true iff the minimum interval since the
last pull has strictly elapsed and either no cool-down window is open or the
window has strictly elapsed; immediately after a pull at time T it returns
false for every query time in the half-open interval (T, T + interval] and
true afterward absent an active cool-down; and its only state mutation is
the in_timeout flag — every other attribute, last_pull and timeout_start
included, is untouched. -/
theorem c5_pull_gate (cfg : Config) (s : Ingester) (now : Int) :
    ((pull_allowed cfg s now).1 = true ↔
      (now - s.last_pull > cfg.pull_frequency_minimum_interval ∧
       (s.timeout_start = none ∨
        ∃ ts, s.timeout_start = some ts ∧ now - ts > cfg.refresh_period))) ∧
    ((pull_allowed cfg s now).2
        = { s with in_timeout := (pull_allowed cfg s now).2.in_timeout }) ∧
    (∀ T, s.last_pull = T → T < now → now ≤ T + cfg.pull_frequency_minimum_interval →
        (pull_allowed cfg s now).1 = false) ∧
    (now - s.last_pull > cfg.pull_frequency_minimum_interval → s.timeout_start = none →
        (pull_allowed cfg s now).1 = true) ∧
    (∀ ts, now - s.last_pull > cfg.pull_frequency_minimum_interval →
        s.timeout_start = some ts → now - ts > cfg.refresh_period →
        (pull_allowed cfg s now).1 = true) := by
  refine ⟨?_, rfl, ?_, ?_, ?_⟩
  · unfold pull_allowed
    cases h : s.timeout_start with
    | none => simp
    | some ts => simp
  · intro T hT hlt hle
    have hc : ¬ (now - s.last_pull > cfg.pull_frequency_minimum_interval) := by omega
    unfold pull_allowed
    simp [hc]
  · intro h1 h2
    unfold pull_allowed
    rw [h2]
    simp [h1]
  · intro ts h1 h2 h3
    unfold pull_allowed
    rw [h2]
    simp [h1, h3]

/-- Claim C5 witness: the gate theorem applied at a concrete window — a pull
recorded at time 0, minimum interval 300, no cool-down — for query times 200
(denied) and 400 (allowed). -/
theorem c5_pull_gate_witness :
    (pull_allowed
        { pull_frequency_minimum_interval := 300, refresh_period := 3600,
          timeout := 60, error_timeout := 600, listing_pull_frequency := 86400,
          global_pull_frequency := 86400, page_length := 100 }
        { last_pull := 0, last_listing_update := 0, timeout_start := none,
          in_timeout := false, page_tracker := PageTracker.mk0 100 0,
          global_content_initialized := false, listing_initialized := false,
          tickers_initialized := false, first_ticker_added := false,
          currency_df := CurrencyDf.sentinel, persisted := [] } 200).1 = false ∧
    (pull_allowed
        { pull_frequency_minimum_interval := 300, refresh_period := 3600,
          timeout := 60, error_timeout := 600, listing_pull_frequency := 86400,
          global_pull_frequency := 86400, page_length := 100 }
        { last_pull := 0, last_listing_update := 0, timeout_start := none,
          in_timeout := false, page_tracker := PageTracker.mk0 100 0,
          global_content_initialized := false, listing_initialized := false,
          tickers_initialized := false, first_ticker_added := false,
          currency_df := CurrencyDf.sentinel, persisted := [] } 400).1 = true :=
  ⟨(c5_pull_gate _ _ 200).2.2.1 0 rfl (by decide) (by decide),
   (c5_pull_gate _ _ 400).2.2.2.1 (by decide) rfl⟩

/-- Claim C6: the snapshot trigger embedded from the finally block of
_update_next_ticker_set fires exactly when the coming page of the cursor
equals 1 and the engine is not inside the post-snapshot cool-down (in_timeout
false); on firing it hands the canonical table, unchanged, to the persistor,
sets timeout_start to the current time and in_timeout to true, and a further
evaluation of the trigger on the resulting state does not fire (no second
export while the cool-down is active). -/
theorem c6_snapshot_trigger (s : Ingester) (now now2 : Int) :
    ((snapshot_check s now).1 = true ↔
      (s.page_tracker.coming_page = some 1 ∧ s.in_timeout = false)) ∧
    ((snapshot_check s now).1 = true →
      ((snapshot_check s now).2.timeout_start = some now ∧
       (snapshot_check s now).2.in_timeout = true ∧
       (snapshot_check s now).2.persisted = s.persisted ++ [s.currency_df] ∧
       (snapshot_check s now).2.currency_df = s.currency_df ∧
       (snapshot_check (snapshot_check s now).2 now2).1 = false ∧
       (snapshot_check (snapshot_check s now).2 now2).2.persisted
          = (snapshot_check s now).2.persisted)) := by
  unfold snapshot_check
  split
  next h => simp [h, snapshot_check]
  next h => simp [h]

/-- Claim C6 witness: the trigger theorem applied at a concrete state whose
cursor is about to restart the cycle with the cool-down inactive. -/
theorem c6_snapshot_trigger_witness :
    (snapshot_check
        { last_pull := 0, last_listing_update := 0, timeout_start := none,
          in_timeout := false,
          page_tracker :=
            { pageLength := 100, maxPage := 250, nextPage := some 1,
              completedFullCycle := true, lastPage := some 201 },
          global_content_initialized := true, listing_initialized := true,
          tickers_initialized := true, first_ticker_added := true,
          currency_df := CurrencyDf.df [(1, [("name", some (Value.strV "BTC"))])],
          persisted := [] } 500).2.persisted
      = [CurrencyDf.df [(1, [("name", some (Value.strV "BTC"))])]] := by
  have h := (c6_snapshot_trigger
    { last_pull := 0, last_listing_update := 0, timeout_start := none,
      in_timeout := false,
      page_tracker :=
        { pageLength := 100, maxPage := 250, nextPage := some 1,
          completedFullCycle := true, lastPage := some 201 },
      global_content_initialized := true, listing_initialized := true,
      tickers_initialized := true, first_ticker_added := true,
      currency_df := CurrencyDf.df [(1, [("name", some (Value.strV "BTC"))])],
      persisted := [] } 500 501).2 (by decide)
  exact h.2.2.1

lemma pull_allowed_currency_df (cfg : Config) (s : Ingester) (now : Int) :
    (pull_allowed cfg s now).2.currency_df = s.currency_df := rfl

lemma snapshot_check_currency_df (s : Ingester) (now : Int) :
    (snapshot_check s now).2.currency_df = s.currency_df := by
  unfold snapshot_check
  split <;> rfl

/-- Claim C7: no failed pull corrupts the canonical table.  The global update
never touches it at all; and whenever the listing update or the ticker-page
update raises — in particular when the response lacks its data payload and a
response error is raised — the canonical table after the attempt equals the
table before it. -/
theorem c7_failed_pull_preserves_table :
    (∀ (cfg : Config) (s : Ingester) (now : Int) (r : GlobalResponse) (ov : Bool),
        (update_global cfg s now r ov).2.currency_df = s.currency_df) ∧
    (∀ (cfg : Config) (s : Ingester) (now : Int) (r : DataResponse) (ov : Bool)
        (e : IngestError),
        (update_currency_list cfg s now r ov).1 = Except.error e →
        (update_currency_list cfg s now r ov).2.currency_df = s.currency_df) ∧
    (∀ (cfg : Config) (s : Ingester) (now : Int) (r : DataResponse) (e : IngestError),
        (update_next_ticker_set cfg s now r).1 = Except.error e →
        (update_next_ticker_set cfg s now r).2.currency_df = s.currency_df) := by
  refine ⟨?_, ?_, ?_⟩
  · intro cfg s now r ov
    unfold update_global
    dsimp only []
    repeat' split
    all_goals rfl
  · intro cfg s now r ov e h
    unfold update_currency_list at h ⊢
    dsimp only [] at h ⊢
    repeat' split at h
    all_goals simp_all [pull_allowed_currency_df]
  · intro cfg s now r e h
    unfold update_next_ticker_set at h ⊢
    dsimp only [] at h ⊢
    rw [snapshot_check_currency_df]
    repeat' split at h
    all_goals simp_all [pull_allowed_currency_df]

/-- Claim C7 witness: the preservation theorem applied at a concrete
fully-initialized state, once for a ticker pull whose response lacks its
data payload (response error) and once for a subsequent listing pull (which
raises on the defective emptiness check). -/
theorem c7_failed_pull_preserves_table_witness :
    (update_next_ticker_set cfg_demo ingester_ready 5000
        { data := none, metadata := "upstream down" }).2.currency_df
      = ingester_ready.currency_df ∧
    (update_currency_list cfg_demo ingester_ready 5000
        { data := some incoming_listing, metadata := "" } true).2.currency_df
      = ingester_ready.currency_df :=
  ⟨c7_failed_pull_preserves_table.2.2 cfg_demo ingester_ready 5000
      { data := none, metadata := "upstream down" }
      (IngestError.response_error "upstream down") (by decide),
   c7_failed_pull_preserves_table.2.1 cfg_demo ingester_ready 5000
      { data := some incoming_listing, metadata := "" } true
      (IngestError.value_error "truth value of a DataFrame is ambiguous") (by decide)⟩

/-- Claim C2 (code bug): on a subsequent listing pull — canonical table
already non-empty — the code does not perform the specified right-join
between the existing table and the parsed listing.  Line 345 compares the
DataFrame against the `pd.DataFrame.empty` property object, which raises
ValueError in a boolean context, and the merge on line 348 would pass the
raw response dict rather than the parsed table to `pd.merge` (a TypeError)
even if control reached it.  Evaluated at a concrete non-empty table and a
valid incoming listing: the embedded code raises and leaves the table
untouched, while the spec-modelled right-join produces the merged table
(matched row takes the incoming values, the new row is inserted, the stale
row is dropped). -/
theorem c2_listing_merge_code_eval :
    (update_currency_list cfg_demo ingester_ready 5000
        { data := some incoming_listing, metadata := "" } true).1
      = Except.error (IngestError.value_error "truth value of a DataFrame is ambiguous") ∧
    (update_currency_list cfg_demo ingester_ready 5000
        { data := some incoming_listing, metadata := "" } true).2.currency_df
      = CurrencyDf.df table_demo ∧
    spec_listing_merge table_demo incoming_listing
      = [(1, row_btc_new ++ [("rank", some (Value.intV 1))]), (3, row_new)] := by
  refine ⟨by decide, by decide, by decide⟩

/-- Claim C10: the snapshot trigger of the ticker update runs in the finally
position — it is evaluated when the pull gate denies the pull and when the
pull raises a response error.  When the gate denies and the coming page is 1
with the cool-down inactive, the update succeeds with no merge, the table is
unchanged, and the existing table is nevertheless exported; when the gate
allows but the response lacks its data payload, the response error is raised
and the export still fires whenever the coming page of the advanced cursor is 1
and the cool-down is inactive. -/
theorem c10_snapshot_runs_in_finally (cfg : Config) (s : Ingester) (now : Int)
    (r : DataResponse) :
    ((pull_allowed cfg s now).1 = false →
      update_next_ticker_set cfg s now r
        = (Except.ok (), (snapshot_check (pull_allowed cfg s now).2 now).2)) ∧
    ((pull_allowed cfg s now).1 = false →
      s.page_tracker.coming_page = some 1 →
      (pull_allowed cfg s now).2.in_timeout = false →
      ((update_next_ticker_set cfg s now r).1 = Except.ok () ∧
       (update_next_ticker_set cfg s now r).2.currency_df = s.currency_df ∧
       (update_next_ticker_set cfg s now r).2.persisted
          = s.persisted ++ [s.currency_df])) ∧
    ((pull_allowed cfg s now).1 = true →
      r.data = none →
      ((update_next_ticker_set cfg s now r).1
          = Except.error (IngestError.response_error r.metadata) ∧
       (update_next_ticker_set cfg s now r).2.currency_df = s.currency_df ∧
       (((pull_allowed cfg s now).2.page_tracker.next_page).2.coming_page = some 1 →
        (pull_allowed cfg s now).2.in_timeout = false →
        (update_next_ticker_set cfg s now r).2.persisted
          = s.persisted ++ [s.currency_df]))) := by
  refine ⟨?_, ?_, ?_⟩
  · intro hg
    unfold update_next_ticker_set
    dsimp only []
    simp [hg]
  · intro hg hc hit
    unfold update_next_ticker_set
    dsimp only []
    simp only [hg, Bool.false_eq_true, if_false]
    unfold snapshot_check
    rw [if_pos]
    · exact ⟨trivial, rfl, rfl⟩
    · exact ⟨hc, hit⟩
  · intro hg hd
    unfold update_next_ticker_set
    dsimp only []
    simp only [hg, if_true, hd]
    refine ⟨?_, ?_, ?_⟩
    · trivial
    · rw [snapshot_check_currency_df]
      rfl
    · intro hc hit
      unfold snapshot_check
      rw [if_pos]
      · rfl
      · exact ⟨hc, hit⟩

/-- Claim C10 witness: the finally theorem applied at a concrete state whose
gate denies the pull (only 100 seconds since the last pull) while the cursor
is about to restart its cycle: the export of the unmodified table fires. -/
theorem c10_snapshot_runs_in_finally_witness :
    (update_next_ticker_set cfg_demo ingester_wrap 100
        { data := some incoming_listing, metadata := "" }).2.persisted
      = ingester_wrap.persisted ++ [ingester_wrap.currency_df] :=
  ((c10_snapshot_runs_in_finally cfg_demo ingester_wrap 100
      { data := some incoming_listing, metadata := "" }).2.1
    (by decide) (by decide) (by decide)).2.2

/-- Claim C8: when the global endpoint responds without its data payload
during initialization, the loop iteration logs exactly one api_error entry
carrying the response metadata, leaves the initialization flags unchanged,
sleeps the configured error backoff in place of the normal interval, and
keeps running; the canonical table is also untouched. -/
theorem c8_response_error_iteration (cfg : Config) (s : Ingester) (now : Int)
    (g : GlobalResponse) (l t : DataResponse)
    (hflag : s.global_content_initialized = false)
    (hdata : g.data = none)
    (hmin : now - s.last_pull > cfg.pull_frequency_minimum_interval)
    (hts : s.timeout_start = none) :
    (run_iteration cfg s now g l t).2.1 = [LogEntry.api_error g.metadata] ∧
    (run_iteration cfg s now g l t).2.2.1 = cfg.error_timeout ∧
    (run_iteration cfg s now g l t).2.2.2 = true ∧
    (run_iteration cfg s now g l t).1.global_content_initialized = false ∧
    (run_iteration cfg s now g l t).1.listing_initialized = s.listing_initialized ∧
    (run_iteration cfg s now g l t).1.tickers_initialized = s.tickers_initialized ∧
    (run_iteration cfg s now g l t).1.currency_df = s.currency_df := by
  have hinit : initialized s = false := by
    unfold initialized
    rw [hflag]
    simp
  have hgate : (pull_allowed cfg s now).1 = true := by
    unfold pull_allowed
    rw [hts]
    simp [hmin]
  unfold run_iteration
  simp only [hinit, Bool.false_eq_true, if_false]
  unfold initialize_data
  rw [if_pos hflag]
  unfold update_global
  rw [if_pos (Or.inr rfl : now - s.last_listing_update > cfg.global_pull_frequency ∨ true = true)]
  dsimp only []
  rw [if_pos hgate, hdata]
  exact ⟨rfl, rfl, rfl, hflag, rfl, rfl, rfl⟩

/-- Claim C8 witness: the iteration theorem applied at a freshly constructed
engine, 1000 seconds after construction, with a global response missing its
data payload. -/
theorem c8_response_error_iteration_witness :
    (run_iteration cfg_demo (initial_state cfg_demo 0) 1000
        { data := none, metadata := "rate limited" }
        { data := some incoming_listing, metadata := "" }
        { data := some incoming_listing, metadata := "" }).2.1
      = [LogEntry.api_error "rate limited"] ∧
    (run_iteration cfg_demo (initial_state cfg_demo 0) 1000
        { data := none, metadata := "rate limited" }
        { data := some incoming_listing, metadata := "" }
        { data := some incoming_listing, metadata := "" }).2.2.1
      = cfg_demo.error_timeout :=
  have h := c8_response_error_iteration cfg_demo (initial_state cfg_demo 0) 1000
    { data := none, metadata := "rate limited" }
    { data := some incoming_listing, metadata := "" }
    { data := some incoming_listing, metadata := "" }
    rfl rfl (by decide) rfl
  ⟨h.1, h.2.1⟩

lemma update_global_flags3 (cfg : Config) (s : Ingester) (now : Int)
    (r : GlobalResponse) (ov : Bool) :
    (update_global cfg s now r ov).2.global_content_initialized = s.global_content_initialized ∧
    (update_global cfg s now r ov).2.listing_initialized = s.listing_initialized ∧
    (update_global cfg s now r ov).2.tickers_initialized = s.tickers_initialized := by
  unfold update_global
  dsimp only []
  repeat' split
  all_goals exact ⟨rfl, rfl, rfl⟩

lemma update_currency_list_flags3 (cfg : Config) (s : Ingester) (now : Int)
    (r : DataResponse) (ov : Bool) :
    (update_currency_list cfg s now r ov).2.global_content_initialized = s.global_content_initialized ∧
    (update_currency_list cfg s now r ov).2.listing_initialized = s.listing_initialized ∧
    (update_currency_list cfg s now r ov).2.tickers_initialized = s.tickers_initialized := by
  unfold update_currency_list
  dsimp only []
  repeat' split
  all_goals exact ⟨rfl, rfl, rfl⟩

lemma snapshot_check_flags3 (s : Ingester) (now : Int) :
    (snapshot_check s now).2.global_content_initialized = s.global_content_initialized ∧
    (snapshot_check s now).2.listing_initialized = s.listing_initialized ∧
    (snapshot_check s now).2.tickers_initialized = s.tickers_initialized := by
  unfold snapshot_check
  split
  all_goals exact ⟨rfl, rfl, rfl⟩

lemma update_next_ticker_set_flags3 (cfg : Config) (s : Ingester) (now : Int)
    (r : DataResponse) :
    (update_next_ticker_set cfg s now r).2.global_content_initialized = s.global_content_initialized ∧
    (update_next_ticker_set cfg s now r).2.listing_initialized = s.listing_initialized ∧
    (update_next_ticker_set cfg s now r).2.tickers_initialized = s.tickers_initialized := by
  unfold update_next_ticker_set
  dsimp only []
  refine ⟨?_, ?_, ?_⟩
  · rw [(snapshot_check_flags3 _ _).1]
    repeat' split
    all_goals rfl
  · rw [(snapshot_check_flags3 _ _).2.1]
    repeat' split
    all_goals rfl
  · rw [(snapshot_check_flags3 _ _).2.2]
    repeat' split
    all_goals rfl

lemma update_data_flags3 (cfg : Config) (s : Ingester) (now : Int)
    (l t : DataResponse) :
    (update_data cfg s now l t).2.global_content_initialized = s.global_content_initialized ∧
    (update_data cfg s now l t).2.listing_initialized = s.listing_initialized ∧
    (update_data cfg s now l t).2.tickers_initialized = s.tickers_initialized := by
  unfold update_data
  split
  · rename_i s1 heq
    have h2 : (update_currency_list cfg s now l false).2 = s1 := congrArg Prod.snd heq
    have hf := update_currency_list_flags3 cfg s now l false
    rw [h2] at hf
    have hg := update_next_ticker_set_flags3 cfg s1 now t
    exact ⟨hg.1.trans hf.1, hg.2.1.trans hf.2.1, hg.2.2.trans hf.2.2⟩
  · rename_i s1 heq
    have h2 : (update_currency_list cfg s now l false).2 = s1 := congrArg Prod.snd heq
    have hf := update_currency_list_flags3 cfg s now l false
    rw [h2] at hf
    exact hf

lemma run_iteration_state (cfg : Config) (s : Ingester) (now : Int)
    (g : GlobalResponse) (l t : DataResponse) :
    (run_iteration cfg s now g l t).1
      = (if initialized s then update_data cfg s now l t
         else initialize_data cfg s now g l t).2 := by
  unfold run_iteration
  dsimp only []
  split <;> rename_i s1 heq <;> rw [heq]

lemma initialize_data_inv_step (cfg : Config) (s : Ingester) (now : Int)
    (g : GlobalResponse) (l t : DataResponse) :
    (((s.global_content_initialized = true →
        (initialize_data cfg s now g l t).2.global_content_initialized = true) ∧
      (s.listing_initialized = true →
        (initialize_data cfg s now g l t).2.listing_initialized = true) ∧
      (s.tickers_initialized = true →
        (initialize_data cfg s now g l t).2.tickers_initialized = true)) ∧
     ((s.listing_initialized = true → s.global_content_initialized = true) →
      (s.tickers_initialized = true → s.listing_initialized = true) →
      (((initialize_data cfg s now g l t).2.listing_initialized = true →
        (initialize_data cfg s now g l t).2.global_content_initialized = true) ∧
       ((initialize_data cfg s now g l t).2.tickers_initialized = true →
        (initialize_data cfg s now g l t).2.listing_initialized = true)))) := by
  unfold initialize_data
  split
  · rename_i hg
    split <;> rename_i s1 heq <;>
      have h2 : (update_global cfg s now g true).2 = s1 := congrArg Prod.snd heq <;>
      have hf := update_global_flags3 cfg s now g true <;>
      rw [h2] at hf <;>
      obtain ⟨hf1, hf2, hf3⟩ := hf
    · exact ⟨⟨fun _ => rfl, fun hx => by simp [hf2, hx], fun hx => by simp [hf3, hx]⟩,
        fun h1 h2 => ⟨fun _ => rfl,
          fun hx => by simp only [] at hx ⊢; rw [hf2]; exact h2 (hf3 ▸ hx)⟩⟩
    · exact ⟨⟨fun hx => hf1.trans hx, fun hx => hf2.trans hx, fun hx => hf3.trans hx⟩,
        fun h1 h2 => ⟨fun hx => hf1.symm ▸ (h1 (hf2 ▸ hx)),
          fun hx => hf2.symm ▸ (h2 (hf3 ▸ hx))⟩⟩
    · exact ⟨⟨fun hx => hf1.trans hx, fun hx => hf2.trans hx, fun hx => hf3.trans hx⟩,
        fun h1 h2 => ⟨fun hx => hf1.symm ▸ (h1 (hf2 ▸ hx)),
          fun hx => hf2.symm ▸ (h2 (hf3 ▸ hx))⟩⟩
  · rename_i hg
    have hg' : s.global_content_initialized = true := by
      cases hsg : s.global_content_initialized
      · exact absurd hsg hg
      · rfl
    split
    · rename_i hl
      split <;> rename_i s1 heq <;>
        have h2 : (update_currency_list cfg s now l true).2 = s1 := congrArg Prod.snd heq <;>
        have hf := update_currency_list_flags3 cfg s now l true <;>
        rw [h2] at hf <;>
        obtain ⟨hf1, hf2, hf3⟩ := hf
      · exact ⟨⟨fun _ => by simp [hf1, hg'], fun _ => rfl, fun hx => by simp [hf3, hx]⟩,
          fun h1 h2 => ⟨fun _ => by simp [hf1, hg'], fun _ => rfl⟩⟩
      · exact ⟨⟨fun hx => hf1.trans hx, fun hx => hf2.trans hx, fun hx => hf3.trans hx⟩,
          fun h1 h2 => ⟨fun hx => hf1.symm ▸ (h1 (hf2 ▸ hx)),
            fun hx => hf2.symm ▸ (h2 (hf3 ▸ hx))⟩⟩
      · exact ⟨⟨fun hx => hf1.trans hx, fun hx => hf2.trans hx, fun hx => hf3.trans hx⟩,
          fun h1 h2 => ⟨fun hx => hf1.symm ▸ (h1 (hf2 ▸ hx)),
            fun hx => hf2.symm ▸ (h2 (hf3 ▸ hx))⟩⟩
    · rename_i hl
      have hl' : s.listing_initialized = true := by
        cases hsl : s.listing_initialized
        · exact absurd hsl hl
        · rfl
      split
      · rename_i ht
        split
        · rename_i s1 heq
          have h2 : (update_next_ticker_set cfg s now t).2 = s1 := congrArg Prod.snd heq
          have hf := update_next_ticker_set_flags3 cfg s now t
          rw [h2] at hf
          obtain ⟨hf1, hf2, hf3⟩ := hf
          split
          · exact ⟨⟨fun _ => by simp [hf1, hg'], fun _ => by simp [hf2, hl'],
                fun _ => rfl⟩,
              fun h1 h2 => ⟨fun _ => by simp [hf1, hg'], fun _ => by simp [hf2, hl']⟩⟩
          · exact ⟨⟨fun hx => hf1.trans hx, fun hx => hf2.trans hx, fun hx => hf3.trans hx⟩,
              fun h1 h2 => ⟨fun hx => hf1.symm ▸ (h1 (hf2 ▸ hx)),
                fun hx => hf2.symm ▸ (h2 (hf3 ▸ hx))⟩⟩
        · rename_i s1 heq
          have h2 : (update_next_ticker_set cfg s now t).2 = s1 := congrArg Prod.snd heq
          have hf := update_next_ticker_set_flags3 cfg s now t
          rw [h2] at hf
          obtain ⟨hf1, hf2, hf3⟩ := hf
          exact ⟨⟨fun hx => hf1.trans hx, fun hx => hf2.trans hx, fun hx => hf3.trans hx⟩,
            fun h1 h2 => ⟨fun hx => hf1.symm ▸ (h1 (hf2 ▸ hx)),
              fun hx => hf2.symm ▸ (h2 (hf3 ▸ hx))⟩⟩
      · exact ⟨⟨fun hx => hx, fun hx => hx, fun hx => hx⟩, fun h1 h2 => ⟨h1, h2⟩⟩

lemma run_iteration_inv_step (cfg : Config) (s : Ingester) (now : Int)
    (g : GlobalResponse) (l t : DataResponse) :
    (((s.global_content_initialized = true →
        (run_iteration cfg s now g l t).1.global_content_initialized = true) ∧
      (s.listing_initialized = true →
        (run_iteration cfg s now g l t).1.listing_initialized = true) ∧
      (s.tickers_initialized = true →
        (run_iteration cfg s now g l t).1.tickers_initialized = true)) ∧
     ((s.listing_initialized = true → s.global_content_initialized = true) →
      (s.tickers_initialized = true → s.listing_initialized = true) →
      (((run_iteration cfg s now g l t).1.listing_initialized = true →
        (run_iteration cfg s now g l t).1.global_content_initialized = true) ∧
       ((run_iteration cfg s now g l t).1.tickers_initialized = true →
        (run_iteration cfg s now g l t).1.listing_initialized = true)))) := by
  rw [run_iteration_state]
  by_cases hi : initialized s
  · rw [if_pos hi]
    obtain ⟨hf1, hf2, hf3⟩ := update_data_flags3 cfg s now l t
    exact ⟨⟨fun hx => hf1.trans hx, fun hx => hf2.trans hx, fun hx => hf3.trans hx⟩,
      fun h1 h2 => ⟨fun hx => hf1.symm ▸ (h1 (hf2 ▸ hx)),
        fun hx => hf2.symm ▸ (h2 (hf3 ▸ hx))⟩⟩
  · rw [if_neg hi]
    exact initialize_data_inv_step cfg s now g l t

lemma run_many_inv (cfg : Config) (inputs : List IterInput) :
    ∀ s : Ingester,
      (((s.global_content_initialized = true →
          (run_many cfg s inputs).global_content_initialized = true) ∧
        (s.listing_initialized = true →
          (run_many cfg s inputs).listing_initialized = true) ∧
        (s.tickers_initialized = true →
          (run_many cfg s inputs).tickers_initialized = true)) ∧
       ((s.listing_initialized = true → s.global_content_initialized = true) →
        (s.tickers_initialized = true → s.listing_initialized = true) →
        (((run_many cfg s inputs).listing_initialized = true →
          (run_many cfg s inputs).global_content_initialized = true) ∧
         ((run_many cfg s inputs).tickers_initialized = true →
          (run_many cfg s inputs).listing_initialized = true)))) := by
  induction inputs with
  | nil => exact fun s => ⟨⟨fun h => h, fun h => h, fun h => h⟩, fun h1 h2 => ⟨h1, h2⟩⟩
  | cons inp rest ih =>
      intro s
      obtain ⟨now, g, l, t⟩ := inp
      have hstep := run_iteration_inv_step cfg s now g l t
      have hrest := ih (run_iteration cfg s now g l t).1
      refine ⟨⟨?_, ?_, ?_⟩, ?_⟩
      · exact fun hx => hrest.1.1 (hstep.1.1 hx)
      · exact fun hx => hrest.1.2.1 (hstep.1.2.1 hx)
      · exact fun hx => hrest.1.2.2 (hstep.1.2.2 hx)
      · intro h1 h2
        have hmid := hstep.2 h1 h2
        exact hrest.2 hmid.1 hmid.2

/-- Claim C3: in every reachable state of the engine, the listing flag is
never true unless the global flag is true, the tickers flag is never true
unless the listing flag is true, and the derived initialized state holds
exactly when all three flags are true — so Ready is only reached after the
three stages succeed in that relative order; moreover each of the three
flags, once true, stays true under any further run of the loop. -/
theorem c3_initialization_order :
    (∀ (cfg : Config) (s : Ingester), ReachableState cfg s →
      ((s.listing_initialized = true → s.global_content_initialized = true) ∧
       (s.tickers_initialized = true → s.listing_initialized = true) ∧
       (initialized s = true ↔
         (s.global_content_initialized = true ∧ s.listing_initialized = true ∧
          s.tickers_initialized = true)))) ∧
    (∀ (cfg : Config) (s : Ingester) (inputs : List IterInput),
      (s.global_content_initialized = true →
        (run_many cfg s inputs).global_content_initialized = true) ∧
      (s.listing_initialized = true →
        (run_many cfg s inputs).listing_initialized = true) ∧
      (s.tickers_initialized = true →
        (run_many cfg s inputs).tickers_initialized = true)) := by
  constructor
  · rintro cfg s ⟨t0, inputs, rfl⟩
    have h := (run_many_inv cfg inputs (initial_state cfg t0)).2
      (fun hx => by simp [initial_state] at hx) (fun hx => by simp [initial_state] at hx)
    refine ⟨h.1, h.2, ?_⟩
    unfold initialized
    constructor
    · intro hx
      simp only [Bool.and_eq_true] at hx
      exact ⟨hx.2, hx.1.1, hx.1.2⟩
    · intro hx
      simp only [Bool.and_eq_true]
      exact ⟨⟨hx.2.1, hx.2.2⟩, hx.1⟩
  · intro cfg s inputs
    exact (run_many_inv cfg inputs s).1

/-- Claim C3 witness: the order invariant applied at the reachable state two
iterations deep (global then listing initialized), and the monotonicity
conjunct applied at a fully initialized state. -/
theorem c3_initialization_order_witness :
    (run_many cfg_demo (initial_state cfg_demo 0) demo_inputs).global_content_initialized
      = true ∧
    (run_many cfg_demo ingester_ready []).tickers_initialized = true :=
  ⟨(c3_initialization_order.1 cfg_demo
      (run_many cfg_demo (initial_state cfg_demo 0) demo_inputs)
      ⟨0, demo_inputs, rfl⟩).1 (by decide),
   (c3_initialization_order.2 cfg_demo ingester_ready []).2.2 rfl⟩
